import Mathlib

/-!
Shallow embedding of `src/mensa.py` (the Mensa menu bot).

The Python module contains:
* a page-state classifier `is_menu_available`;
* a crop-region computation inside `capture_and_send_screenshot`;
* the retry loop of `capture_and_send_screenshot` itself;
* JSON post-id persistence `save_post_id` / `load_post_id`;
* the scheduled jobs `post_morning_message` / `post_reminder_message`
  and the shared weekend check `is_weekend`.

External effects (browser navigation, screenshots, uploads, chat posts,
file writes, sleeping) are modelled by explicit environment records that
say what each external call would return, and by traces of events that
record which effectful calls the code performs.  Python exceptions are
modelled with `Except`: a function that can raise to its caller returns
`Except PyExn _`; an exception that the code itself catches is folded into
the ordinary return value of the model, exactly where the `try`/`except`
blocks sit in the source.
-/

namespace Mensa

/-- Python exceptions that matter for the model: `AttributeError` raised by
`data.get(...)` on a non-dict, and any other exception (playwright errors,
OS errors, ...) which the retry loop's broad `except Exception` treats
uniformly. -/
inductive PyExn where
  | attributeError
  | genericError
  deriving DecidableEq, Repr

/-! ## Constants (from the top of `mensa.py`) -/

/-- The lower-cased phrase tested by `is_menu_available`
(`"heute keine essensausgabe" in inner_text`). -/
def NO_SERVICE_PHRASE : String := "heute keine essensausgabe"

/-- `MARGIN_TOP = 18` (pixels, vertical crop margin). -/
def MARGIN_TOP : Int := 18

/-- `MARGIN_LEFT = 25` (pixels, horizontal crop margin). -/
def MARGIN_LEFT : Int := 25

/-! ## Region extraction

`capture_and_send_screenshot` computes
```
x = max(int(box["x"]) - MARGIN_LEFT, 0)
y = max(int(box["y"]) - MARGIN_TOP, 0)
width = int(box["width"]) + MARGIN_LEFT * 2
height = int(box["height"]) + MARGIN_TOP * 2
```
The playwright bounding box holds floats which the source immediately
truncates with `int(...)`; the model's `Box` holds those already-truncated
integer values. -/

/-- An element's bounding box, with the integer pixel values that
`int(box["x"])` etc. produce. -/
structure Box where
  x : Int
  y : Int
  width : Int
  height : Int
  deriving DecidableEq, Repr

/-- The crop rectangle passed to `image.crop`. -/
structure CropRegion where
  x : Int
  y : Int
  width : Int
  height : Int
  deriving DecidableEq, Repr

/-- The crop-region computation, verbatim from lines 216-219 of the source. -/
def crop_region (box : Box) : CropRegion :=
  { x := max (box.x - MARGIN_LEFT) 0
    y := max (box.y - MARGIN_TOP) 0
    width := box.width + MARGIN_LEFT * 2
    height := box.height + MARGIN_TOP * 2 }

/-- The region-extraction formula as the specification states it
(spec 4.2), parameterised by the margins; used as the refinement target
for the claim about the extractor. -/
def crop_region_spec (box : Box) (marginLeft marginTop : Int) : CropRegion :=
  { x := max (box.x - marginLeft) 0
    y := max (box.y - marginTop) 0
    width := box.width + 2 * marginLeft
    height := box.height + 2 * marginTop }

/-! ## Page-state classifier -/

/-- A DOM element handle as the classifier sees it.
`innerTextResult = none` models `inner_text()` raising (e.g. the element
became detached); `some t` is the text it returns.  `boundingBox` is the
result of `bounding_box()` (`None` when the element has no box). -/
structure Element where
  innerTextResult : Option String
  boundingBox : Option Box
  deriving DecidableEq, Repr

/-- A loaded page, abstracted to the one DOM query the classifier makes:
`visibleTab` is the result of `page.query_selector(VISIBLE_TAB_SELECTOR)`. -/
structure Page where
  visibleTab : Option Element
  deriving DecidableEq, Repr

/-- The tri-state result of `is_menu_available`, as a tagged union.
The Python function returns `None` (here `unavailable`), the string
`"no_service"` (here `noServiceToday`), or the element handle itself
(here `menuAvailable el`). -/
inductive PageState where
  | menuAvailable (el : Element)
  | noServiceToday
  | unavailable
  deriving DecidableEq, Repr

/-- `needle` occurs at the head of `hay` (helper for Python's `in`). -/
def startsWithSeq : List Char → List Char → Bool
  | [], _ => true
  | _ :: _, [] => false
  | a :: as, b :: bs => decide (a = b) && startsWithSeq as bs

/-- `needle in hay` for character sequences (Python substring test). -/
def containsSeq (needle : List Char) : List Char → Bool
  | [] => startsWithSeq needle []
  | b :: bs => startsWithSeq needle (b :: bs) || containsSeq needle bs

/-- Python's `s.lower()`, modelled characterwise. -/
def pyLower (s : String) : List Char := s.toList.map Char.toLower

/-- `"heute keine essensausgabe" in inner_text.lower()`. -/
def containsNoService (t : String) : Bool :=
  containsSeq NO_SERVICE_PHRASE.toList (pyLower t)

/-- `is_menu_available` (lines 154-164).  There is no `try` in the source
function, so a failing `inner_text()` call propagates to the caller; the
model mirrors that with `Except.error`. -/
def is_menu_available (page : Page) : Except PyExn PageState :=
  match page.visibleTab with
  | none => Except.ok PageState.unavailable
  | some tab =>
    match tab.innerTextResult with
    | none => Except.error PyExn.genericError
    | some t =>
      if containsNoService t then Except.ok PageState.noServiceToday
      else Except.ok (PageState.menuAvailable tab)

/-! ## Capture-with-retry controller

One loop iteration of `capture_and_send_screenshot` performs, in order:
browser launch / `new_page` / `goto` / `wait_for_selector` (any failure is
caught by the broad `except Exception`), classification, the
`"no_service"` early return, the `continue` on a missing tab, the optional
`page.evaluate(JS_SCRIPT)`, the full-page screenshot, the bounding-box
`continue`, the crop (`Image.open` / `crop` / `save`), and the upload with
its truthiness check.  `AttemptEnv` records what every external call in
one iteration would do. -/

/-- External behaviour of one attempt.  `navOk = false` means one of
launch / `new_page` / `goto` / `wait_for_selector` raised.  `page` is the
DOM at classification time.  `evalOk`, `screenshotOk`, `imageOk` say
whether `page.evaluate`, `page.screenshot`, and the PIL open/crop/save
calls succeed.  `uploadResult` is what `mm.upload_file` returns; that
method catches its own exceptions and returns `None` on failure, so it
never raises. -/
structure AttemptEnv where
  navOk : Bool
  page : Page
  evalOk : Bool
  screenshotOk : Bool
  imageOk : Bool
  uploadResult : Option String
  deriving DecidableEq, Repr

/-- How one loop iteration ends.
`retNone` is the `return None` on `"no_service"`; `retFile` the
`return file_id`; `failContinue` a `continue` statement (missing tab or
missing bounding box) which skips the trailing `time.sleep`;
`failFalsyUpload` falling off the end of the `try` block after a falsy
upload result; `failExn` an exception caught by `except Exception`.  The
last two reach the `time.sleep(delay_seconds)` at the bottom of the loop
body. -/
inductive AttemptOutcome where
  | retNone
  | retFile (fid : String)
  | failContinue
  | failFalsyUpload
  | failExn
  deriving DecidableEq, Repr

/-- Effectful calls the controller and the jobs make, recorded in order. -/
inductive Event where
  | attemptStart (n : Nat)
  | uploadCall (result : Option String)
  | sleep (seconds : Nat)
  | apologyPost
  | morningPost (fileId : String) (result : Option String)
  | saveRecord (postId : String)
  deriving DecidableEq, Repr

/-- Python truthiness of an optional string (`if file_id:`):
`None` and the empty string are falsy. -/
def pyTruthyStr : Option String → Bool
  | none => false
  | some s => decide (s ≠ "")

/-- One iteration of the retry loop (lines 174-248), given its external
environment and the module-level `JS_SCRIPT` string.  Returns how the
iteration ends together with the upload calls it made.  The HTML dumps of
the missing-tab and exception branches are diagnostic file writes with no
bearing on control flow and are not recorded. -/
def runAttempt (env : AttemptEnv) (js : String) : AttemptOutcome × List Event :=
  if env.navOk = false then (AttemptOutcome.failExn, [])
  else
    match is_menu_available env.page with
    | Except.error _ => (AttemptOutcome.failExn, [])
    | Except.ok PageState.noServiceToday => (AttemptOutcome.retNone, [])
    | Except.ok PageState.unavailable => (AttemptOutcome.failContinue, [])
    | Except.ok (PageState.menuAvailable tab) =>
      if js ≠ "" ∧ env.evalOk = false then (AttemptOutcome.failExn, [])
      else if env.screenshotOk = false then (AttemptOutcome.failExn, [])
      else
        match tab.boundingBox with
        | none => (AttemptOutcome.failContinue, [])
        | some _ =>
          if env.imageOk = false then (AttemptOutcome.failExn, [])
          else
            match env.uploadResult with
            | some fid =>
              if fid ≠ "" then
                (AttemptOutcome.retFile fid, [Event.uploadCall (some fid)])
              else
                (AttemptOutcome.failFalsyUpload, [Event.uploadCall (some fid)])
            | none => (AttemptOutcome.failFalsyUpload, [Event.uploadCall none])

/-- The retry loop `for attempt in range(1, max_retries + 1)` of
`capture_and_send_screenshot`, recursing on the number of remaining
iterations.  `a` is the current attempt number, `d` the `delay_seconds`
argument, and `envs k` the external environment of attempt `k`.  When the
loop exhausts its budget the source posts the apology message and returns
`None`.  A `continue` outcome moves to the next attempt without sleeping
(the `continue` jumps past `time.sleep`); the falsy-upload and exception
outcomes sleep first. -/
def captureGo (envs : Nat → AttemptEnv) (js : String) (d : Nat) :
    Nat → Nat → Option String × List Event
  | _, 0 => (none, [Event.apologyPost])
  | a, rem + 1 =>
    let evs := (runAttempt (envs a) js).2
    match (runAttempt (envs a) js).1 with
    | AttemptOutcome.retNone => (none, Event.attemptStart a :: evs)
    | AttemptOutcome.retFile fid => (some fid, Event.attemptStart a :: evs)
    | AttemptOutcome.failContinue =>
      let r := captureGo envs js d (a + 1) rem
      (r.1, Event.attemptStart a :: (evs ++ r.2))
    | AttemptOutcome.failFalsyUpload =>
      let r := captureGo envs js d (a + 1) rem
      (r.1, Event.attemptStart a :: (evs ++ Event.sleep d :: r.2))
    | AttemptOutcome.failExn =>
      let r := captureGo envs js d (a + 1) rem
      (r.1, Event.attemptStart a :: (evs ++ Event.sleep d :: r.2))

/-- `capture_and_send_screenshot(max_retries, delay_seconds)`
(lines 167-254): run the loop starting at attempt 1; the result is the
returned file id (`none` both for the `"no_service"` early return and for
exhaustion) together with the trace of effectful calls. -/
def capture_and_send_screenshot (envs : Nat → AttemptEnv) (js : String)
    (max_retries delay_seconds : Nat) : Option String × List Event :=
  captureGo envs js delay_seconds 1 max_retries

/-! ## Post-id persistence

`save_post_id` writes `{"post_id": ..., "date": ...}` with `json.dump`;
`load_post_id` reads the file with `json.load` and catches exactly
`FileNotFoundError` and `json.JSONDecodeError`.  The model abstracts a
JSON value stored in a field to `JValue`; nested structure inside an array
or object field is irrelevant to the source (it only string-compares the
`date` field and passes `post_id` through), so a composite value carries
only the emptiness bit that Python truthiness looks at. -/

/-- A JSON value sitting in a field of the state file. -/
inductive JValue where
  | str (s : String)
  | num (n : Int)
  | bool (b : Bool)
  | null
  | composite (nonempty : Bool)
  deriving DecidableEq, Repr

/-- What the state file contains when `load_post_id` opens it:
missing, unparseable text (`json.load` raises `JSONDecodeError`), a JSON
object (a Python dict), or well-formed JSON whose top level is not an
object (a list, string, number, boolean or null). -/
inductive FileContent where
  | missing
  | notJson
  | jsonObj (fields : List (String × JValue))
  | jsonNonObj
  deriving DecidableEq, Repr

/-- `dict.get(key)` on the dict produced by `json.load`: with duplicate
keys the later occurrence wins, as in Python's JSON decoding. -/
def dictGet (fields : List (String × JValue)) (key : String) : Option JValue :=
  match fields with
  | [] => none
  | (k, v) :: rest =>
    match dictGet rest key with
    | some w => some w
    | none => if k = key then some v else none

/-- `save_post_id(post_id)` (lines 119-125): the file afterwards holds the
object `{"post_id": post_id, "date": today}`, with `today` the current
local date formatted `YYYY-MM-DD` (`date().isoformat()`). -/
def save_post_id (post_id : String) (today : String) : FileContent :=
  FileContent.jsonObj [("post_id", JValue.str post_id), ("date", JValue.str today)]

/-- `load_post_id()` (lines 127-136), with `today` the current local date
formatted `YYYY-MM-DD` (`strftime`).  A missing file and undecodable JSON
are caught and give `None`; on a dict, `data.get("date") == today` holds
only when the field is the string `today`, and then the raw
`data.get("post_id")` value is returned.  On any non-dict JSON document
`data.get` raises `AttributeError`, which the `except` clause does not
list, so it propagates to the caller. -/
def load_post_id (file : FileContent) (today : String) :
    Except PyExn (Option JValue) :=
  match file with
  | FileContent.missing => Except.ok none
  | FileContent.notJson => Except.ok none
  | FileContent.jsonNonObj => Except.error PyExn.attributeError
  | FileContent.jsonObj fields =>
    if dictGet fields "date" = some (JValue.str today) then
      Except.ok (dictGet fields "post_id")
    else
      Except.ok none

/-- Python truthiness of a JSON value (`if post_id:`). -/
def jvalueTruthy : JValue → Bool
  | JValue.str s => decide (s ≠ "")
  | JValue.num n => decide (n ≠ 0)
  | JValue.bool b => b
  | JValue.null => false
  | JValue.composite ne => ne

/-! ## Scheduled jobs -/

/-- `is_weekend()` (lines 257-258): `datetime.today().weekday() >= 5`.
`weekday` is Python's weekday index of the current local date
(Monday = 0, ..., Saturday = 5, Sunday = 6). -/
def is_weekend (weekday : Nat) : Bool := decide (5 ≤ weekday)

/-- `post_morning_message()` (lines 260-274) as a trace of effectful
calls.  The capture runs with the source's default arguments
`max_retries = 5`, `delay_seconds = 2`.  `postResult` is the post id of
the Mattermost response when `mm.post` succeeds and `none` when it fails
(that method catches its own exceptions).  `if not file_id: return` uses
Python truthiness; `save_post_id` runs only when the post succeeded.
The function is total: no exception reaches the scheduler loop. -/
def post_morning_message (weekday : Nat) (envs : Nat → AttemptEnv)
    (js : String) (postResult : Option String) : List Event :=
  if is_weekend weekday then []
  else
    let cap := capture_and_send_screenshot envs js 5 2
    match cap.1 with
    | none => cap.2
    | some fid =>
      if fid = "" then cap.2
      else
        match postResult with
        | some postId =>
          cap.2 ++ [Event.morningPost fid (some postId), Event.saveRecord postId]
        | none => cap.2 ++ [Event.morningPost fid none]

/-- Effectful calls of the reminder job. -/
inductive RemEvent where
  | reminderPost (rootId : JValue) (result : Option String)
  | deleteRecord
  deriving DecidableEq, Repr

/-- `post_reminder_message()` (lines 276-295) as a trace of effectful
calls.  `file` is the state-file content, `today` the current local date
string, `postResult` the outcome of the `mm.post` call were it made.  An
`AttributeError` escaping `load_post_id` escapes this job too (there is
no handler on the way), hence the `Except`.  The record is deleted only
after a successful reminder post. -/
def post_reminder_message (weekday : Nat) (file : FileContent)
    (today : String) (postResult : Option String) :
    Except PyExn (List RemEvent) :=
  if is_weekend weekday then Except.ok []
  else
    match load_post_id file today with
    | Except.error e => Except.error e
    | Except.ok pid =>
      match pid with
      | none => Except.ok []
      | some v =>
        if jvalueTruthy v then
          match postResult with
          | some r => Except.ok [RemEvent.reminderPost v (some r), RemEvent.deleteRecord]
          | none => Except.ok [RemEvent.reminderPost v none]
        else Except.ok []

/-! ## Helper predicates and lemmas about the controller -/

/-- Recognises `attemptStart` events. -/
def isAttemptStartB : Event → Bool
  | Event.attemptStart _ => true
  | _ => false

/-- Recognises `sleep` events. -/
def isSleepB : Event → Bool
  | Event.sleep _ => true
  | _ => false

/-- Outcomes that abandon the attempt and let the loop move on. -/
def isFailureB : AttemptOutcome → Bool
  | AttemptOutcome.failContinue => true
  | AttemptOutcome.failFalsyUpload => true
  | AttemptOutcome.failExn => true
  | _ => false

/-- Outcomes whose control path reaches the `time.sleep` at the bottom of
the loop body (`continue` skips it). -/
def sleepyOutcomeB : AttemptOutcome → Bool
  | AttemptOutcome.failFalsyUpload => true
  | AttemptOutcome.failExn => true
  | _ => false

/-- Attempt-start events of attempts whose outcome reaches the sleep. -/
def sleepyAttemptB (envs : Nat → AttemptEnv) (js : String) : Event → Bool
  | Event.attemptStart k => sleepyOutcomeB ((runAttempt (envs k) js).1)
  | _ => false

theorem runAttempt_cases (env : AttemptEnv) (js : String) :
    (∃ fid, runAttempt env js = (AttemptOutcome.retFile fid, [Event.uploadCall (some fid)]) ∧ fid ≠ "") ∨
    runAttempt env js = (AttemptOutcome.failFalsyUpload, [Event.uploadCall env.uploadResult]) ∨
    ((runAttempt env js).2 = [] ∧
      (∀ fid, (runAttempt env js).1 ≠ AttemptOutcome.retFile fid) ∧
      (runAttempt env js).1 ≠ AttemptOutcome.failFalsyUpload) := by
  unfold runAttempt
  repeat' split
  all_goals simp_all

theorem runAttempt_mem {env : AttemptEnv} {js : String} {e : Event}
    (he : e ∈ (runAttempt env js).2) : ∃ r, e = Event.uploadCall r := by
  rcases runAttempt_cases env js with ⟨fid, heq, -⟩ | heq | ⟨hnil, -, -⟩
  · rw [heq] at he
    simp only [List.mem_singleton] at he
    exact ⟨some fid, he⟩
  · rw [heq] at he
    simp only [List.mem_singleton] at he
    exact ⟨env.uploadResult, he⟩
  · rw [hnil] at he
    cases he

theorem runAttempt_not_mem_attemptStart (env : AttemptEnv) (js : String) (k : Nat) :
    Event.attemptStart k ∉ (runAttempt env js).2 := by
  intro h
  obtain ⟨r, hr⟩ := runAttempt_mem h
  cases hr

theorem runAttempt_not_mem_sleep (env : AttemptEnv) (js : String) (s : Nat) :
    Event.sleep s ∉ (runAttempt env js).2 := by
  intro h
  obtain ⟨r, hr⟩ := runAttempt_mem h
  cases hr

theorem runAttempt_not_mem_apology (env : AttemptEnv) (js : String) :
    Event.apologyPost ∉ (runAttempt env js).2 := by
  intro h
  obtain ⟨r, hr⟩ := runAttempt_mem h
  cases hr

theorem runAttempt_not_mem_saveRecord (env : AttemptEnv) (js : String) (p : String) :
    Event.saveRecord p ∉ (runAttempt env js).2 := by
  intro h
  obtain ⟨r, hr⟩ := runAttempt_mem h
  cases hr

theorem runAttempt_countP_zero (env : AttemptEnv) (js : String) (p : Event → Bool)
    (hp : ∀ r, p (Event.uploadCall r) = false) :
    (runAttempt env js).2.countP p = 0 := by
  apply List.countP_eq_zero.mpr
  intro e he
  obtain ⟨r, rfl⟩ := runAttempt_mem he
  simp [hp r]

theorem runAttempt_countP_attempts (env : AttemptEnv) (js : String) :
    (runAttempt env js).2.countP isAttemptStartB = 0 :=
  runAttempt_countP_zero env js _ (fun _ => rfl)

theorem runAttempt_countP_sleeps (env : AttemptEnv) (js : String) :
    (runAttempt env js).2.countP isSleepB = 0 :=
  runAttempt_countP_zero env js _ (fun _ => rfl)

theorem runAttempt_countP_sleepy (env : AttemptEnv) (js : String)
    (envs : Nat → AttemptEnv) :
    (runAttempt env js).2.countP (sleepyAttemptB envs js) = 0 :=
  runAttempt_countP_zero env js _ (fun _ => rfl)

theorem runAttempt_retFile {env : AttemptEnv} {js : String} {fid : String}
    (h : (runAttempt env js).1 = AttemptOutcome.retFile fid) :
    (runAttempt env js).2 = [Event.uploadCall (some fid)] ∧ fid ≠ "" := by
  rcases runAttempt_cases env js with ⟨fid', heq, hne⟩ | heq | ⟨-, hno, -⟩
  · rw [heq] at h ⊢
    simp only at h
    cases h
    exact ⟨rfl, hne⟩
  · rw [heq] at h
    cases h
  · exact absurd h (hno fid)

/-- Recognises the apology-post event. -/
def isApologyB : Event → Bool
  | Event.apologyPost => true
  | _ => false

theorem runAttempt_countP_apology (env : AttemptEnv) (js : String) :
    (runAttempt env js).2.countP isApologyB = 0 :=
  runAttempt_countP_zero env js _ (fun _ => rfl)

theorem captureGo_attempts_le (envs : Nat → AttemptEnv) (js : String) (d : Nat) :
    ∀ rem a, (captureGo envs js d a rem).2.countP isAttemptStartB ≤ rem := by
  intro rem
  induction rem with
  | zero =>
    intro a
    simp [captureGo, isAttemptStartB]
  | succ n ih =>
    intro a
    have hev := runAttempt_countP_attempts (envs a) js
    have hrec := ih (a + 1)
    cases hout : (runAttempt (envs a) js).1 <;>
      simp [captureGo, hout, List.countP_cons, List.countP_append,
        isAttemptStartB, isSleepB, hev] <;>
      omega

theorem captureGo_mem_attemptStart {envs : Nat → AttemptEnv} {js : String} {d : Nat} :
    ∀ {rem a k}, Event.attemptStart k ∈ (captureGo envs js d a rem).2 →
      a ≤ k ∧ ∀ j, a ≤ j → j < k → isFailureB ((runAttempt (envs j) js).1) = true := by
  intro rem
  induction rem with
  | zero =>
    intro a k h
    simp [captureGo] at h
  | succ n ih =>
    intro a k h
    have hnotev := runAttempt_not_mem_attemptStart (envs a) js k
    cases hout : (runAttempt (envs a) js).1 <;>
      simp only [captureGo, hout, List.mem_cons, List.mem_append] at h
    case retNone =>
      rcases h with h | h
      · cases h
        exact ⟨Nat.le_refl _, fun j h1 h2 => absurd (Nat.lt_of_le_of_lt h1 h2) (Nat.lt_irrefl _)⟩
      · exact absurd h hnotev
    case retFile fid =>
      rcases h with h | h
      · cases h
        exact ⟨Nat.le_refl _, fun j h1 h2 => absurd (Nat.lt_of_le_of_lt h1 h2) (Nat.lt_irrefl _)⟩
      · exact absurd h hnotev
    case failContinue =>
      rcases h with h | h | h
      · cases h
        exact ⟨Nat.le_refl _, fun j h1 h2 => absurd (Nat.lt_of_le_of_lt h1 h2) (Nat.lt_irrefl _)⟩
      · exact absurd h hnotev
      · obtain ⟨h1, h2⟩ := ih h
        refine ⟨by omega, fun j hj1 hj2 => ?_⟩
        rcases Nat.eq_or_lt_of_le hj1 with rfl | hlt
        · rw [hout]; rfl
        · exact h2 j hlt hj2
    case failFalsyUpload =>
      rcases h with h | h | h | h
      · cases h
        exact ⟨Nat.le_refl _, fun j h1 h2 => absurd (Nat.lt_of_le_of_lt h1 h2) (Nat.lt_irrefl _)⟩
      · exact absurd h hnotev
      · cases h
      · obtain ⟨h1, h2⟩ := ih h
        refine ⟨by omega, fun j hj1 hj2 => ?_⟩
        rcases Nat.eq_or_lt_of_le hj1 with rfl | hlt
        · rw [hout]; rfl
        · exact h2 j hlt hj2
    case failExn =>
      rcases h with h | h | h | h
      · cases h
        exact ⟨Nat.le_refl _, fun j h1 h2 => absurd (Nat.lt_of_le_of_lt h1 h2) (Nat.lt_irrefl _)⟩
      · exact absurd h hnotev
      · cases h
      · obtain ⟨h1, h2⟩ := ih h
        refine ⟨by omega, fun j hj1 hj2 => ?_⟩
        rcases Nat.eq_or_lt_of_le hj1 with rfl | hlt
        · rw [hout]; rfl
        · exact h2 j hlt hj2

theorem captureGo_retNone_result {envs : Nat → AttemptEnv} {js : String} {d : Nat} :
    ∀ {rem a k}, Event.attemptStart k ∈ (captureGo envs js d a rem).2 →
      (runAttempt (envs k) js).1 = AttemptOutcome.retNone →
      (captureGo envs js d a rem).1 = none ∧
      Event.apologyPost ∉ (captureGo envs js d a rem).2 := by
  intro rem
  induction rem with
  | zero =>
    intro a k h hk
    simp [captureGo] at h
  | succ n ih =>
    intro a k h hk
    have hnotev := runAttempt_not_mem_attemptStart (envs a) js k
    have hnotap := runAttempt_not_mem_apology (envs a) js
    cases hout : (runAttempt (envs a) js).1 <;>
      simp only [captureGo, hout, List.mem_cons, List.mem_append] at h ⊢
    case retNone =>
      exact ⟨by trivial, by simp [List.mem_cons, hnotap]⟩
    case retFile fid =>
      rcases h with h | h
      · cases h
        rw [hk] at hout
        cases hout
      · exact absurd h hnotev
    case failContinue =>
      rcases h with h | h | h
      · cases h
        rw [hk] at hout
        cases hout
      · exact absurd h hnotev
      · obtain ⟨h1, h2⟩ := ih h hk
        exact ⟨h1, by simp [List.mem_cons, List.mem_append, hnotap, h2]⟩
    case failFalsyUpload =>
      rcases h with h | h | h | h
      · cases h
        rw [hk] at hout
        cases hout
      · exact absurd h hnotev
      · cases h
      · obtain ⟨h1, h2⟩ := ih h hk
        exact ⟨h1, by simp [List.mem_cons, List.mem_append, hnotap, h2]⟩
    case failExn =>
      rcases h with h | h | h | h
      · cases h
        rw [hk] at hout
        cases hout
      · exact absurd h hnotev
      · cases h
      · obtain ⟨h1, h2⟩ := ih h hk
        exact ⟨h1, by simp [List.mem_cons, List.mem_append, hnotap, h2]⟩

theorem captureGo_some_upload {envs : Nat → AttemptEnv} {js : String} {d : Nat} :
    ∀ {rem a fid}, (captureGo envs js d a rem).1 = some fid →
      Event.uploadCall (some fid) ∈ (captureGo envs js d a rem).2 ∧ fid ≠ "" := by
  intro rem
  induction rem with
  | zero =>
    intro a fid h
    simp [captureGo] at h
  | succ n ih =>
    intro a fid h
    cases hout : (runAttempt (envs a) js).1 <;>
      simp only [captureGo, hout] at h ⊢
    case retNone => cases h
    case retFile fid' =>
      cases h
      obtain ⟨hev, hne⟩ := runAttempt_retFile hout
      rw [hev]
      exact ⟨by simp, hne⟩
    case failContinue =>
      obtain ⟨h1, h2⟩ := ih h
      exact ⟨by simp [List.mem_cons, List.mem_append, h1], h2⟩
    case failFalsyUpload =>
      obtain ⟨h1, h2⟩ := ih h
      exact ⟨by simp [List.mem_cons, List.mem_append, h1], h2⟩
    case failExn =>
      obtain ⟨h1, h2⟩ := ih h
      exact ⟨by simp [List.mem_cons, List.mem_append, h1], h2⟩

theorem captureGo_all_fail {envs : Nat → AttemptEnv} {js : String} {d : Nat} :
    ∀ {rem a}, (∀ k, a ≤ k → k < a + rem → isFailureB ((runAttempt (envs k) js).1) = true) →
      (captureGo envs js d a rem).1 = none ∧
      (captureGo envs js d a rem).2.countP isApologyB = 1 ∧
      Event.apologyPost ∈ (captureGo envs js d a rem).2 := by
  intro rem
  induction rem with
  | zero =>
    intro a _
    simp [captureGo, isApologyB]
  | succ n ih =>
    intro a h
    have hfa : isFailureB ((runAttempt (envs a) js).1) = true :=
      h a (Nat.le_refl _) (by omega)
    have hap := runAttempt_countP_apology (envs a) js
    have hnotap := runAttempt_not_mem_apology (envs a) js
    have hrec : ∀ k, a + 1 ≤ k → k < a + 1 + n →
        isFailureB ((runAttempt (envs k) js).1) = true :=
      fun k h1 h2 => h k (by omega) (by omega)
    cases hout : (runAttempt (envs a) js).1 <;> rw [hout] at hfa
    case retNone => cases hfa
    case retFile fid => cases hfa
    case failContinue =>
      obtain ⟨h1, h2, h3⟩ := ih hrec
      refine ⟨by simp only [captureGo, hout]; exact h1, ?_, ?_⟩
      · simp [captureGo, hout, List.countP_cons, List.countP_append, hap,
          isApologyB, h2]
      · simp [captureGo, hout, List.mem_cons, List.mem_append, h3]
    case failFalsyUpload =>
      obtain ⟨h1, h2, h3⟩ := ih hrec
      refine ⟨by simp only [captureGo, hout]; exact h1, ?_, ?_⟩
      · simp [captureGo, hout, List.countP_cons, List.countP_append, hap,
          isApologyB, h2]
      · simp [captureGo, hout, List.mem_cons, List.mem_append, h3]
    case failExn =>
      obtain ⟨h1, h2, h3⟩ := ih hrec
      refine ⟨by simp only [captureGo, hout]; exact h1, ?_, ?_⟩
      · simp [captureGo, hout, List.countP_cons, List.countP_append, hap,
          isApologyB, h2]
      · simp [captureGo, hout, List.mem_cons, List.mem_append, h3]

theorem captureGo_sleep_count (envs : Nat → AttemptEnv) (js : String) (d : Nat) :
    ∀ rem a, (captureGo envs js d a rem).2.countP isSleepB =
      (captureGo envs js d a rem).2.countP (sleepyAttemptB envs js) := by
  intro rem
  induction rem with
  | zero =>
    intro a
    simp [captureGo, isSleepB, sleepyAttemptB]
  | succ n ih =>
    intro a
    have hs := runAttempt_countP_sleeps (envs a) js
    have hsl := runAttempt_countP_sleepy (envs a) js envs
    have hrec := ih (a + 1)
    cases hout : (runAttempt (envs a) js).1 <;>
      simp [captureGo, hout, List.countP_cons, List.countP_append, hs, hsl,
        isSleepB, sleepyAttemptB, sleepyOutcomeB, hrec]

theorem captureGo_head_mem (envs : Nat → AttemptEnv) (js : String) (d a rem : Nat)
    (h : 1 ≤ rem) :
    Event.attemptStart a ∈ (captureGo envs js d a rem).2 := by
  cases rem with
  | zero => omega
  | succ n =>
    cases hout : (runAttempt (envs a) js).1 <;> simp [captureGo, hout]

theorem captureGo_next_mem (envs : Nat → AttemptEnv) (js : String) (d a rem : Nat)
    (h2 : 2 ≤ rem) (hf : isFailureB ((runAttempt (envs a) js).1) = true) :
    Event.attemptStart (a + 1) ∈ (captureGo envs js d a rem).2 := by
  cases rem with
  | zero => omega
  | succ n =>
    have h1 : 1 ≤ n := by omega
    have hhead := captureGo_head_mem envs js d (a + 1) n h1
    cases hout : (runAttempt (envs a) js).1 <;> rw [hout] at hf
    case retNone => cases hf
    case retFile fid => cases hf
    case failContinue =>
      simp [captureGo, hout, List.mem_cons, List.mem_append, hhead]
    case failFalsyUpload =>
      simp [captureGo, hout, List.mem_cons, List.mem_append, hhead]
    case failExn =>
      simp [captureGo, hout, List.mem_cons, List.mem_append, hhead]

theorem captureGo_not_mem_saveRecord (envs : Nat → AttemptEnv) (js : String) (d : Nat) :
    ∀ rem a p, Event.saveRecord p ∉ (captureGo envs js d a rem).2 := by
  intro rem
  induction rem with
  | zero =>
    intro a p
    simp [captureGo]
  | succ n ih =>
    intro a p
    have hnot := runAttempt_not_mem_saveRecord (envs a) js p
    have hrec := ih (a + 1) p
    cases hout : (runAttempt (envs a) js).1 <;>
      simp [captureGo, hout, List.mem_cons, List.mem_append, hnot, hrec]

theorem captureGo_sleep_val (envs : Nat → AttemptEnv) (js : String) (d : Nat) :
    ∀ rem a s, Event.sleep s ∈ (captureGo envs js d a rem).2 → s = d := by
  intro rem
  induction rem with
  | zero =>
    intro a s h
    simp [captureGo] at h
  | succ n ih =>
    intro a s h
    have hnot := runAttempt_not_mem_sleep (envs a) js s
    cases hout : (runAttempt (envs a) js).1 <;>
      simp only [captureGo, hout, List.mem_cons, List.mem_append] at h
    case retNone =>
      rcases h with h | h
      · cases h
      · exact absurd h hnot
    case retFile fid =>
      rcases h with h | h
      · cases h
      · exact absurd h hnot
    case failContinue =>
      rcases h with h | h | h
      · cases h
      · exact absurd h hnot
      · exact ih (a + 1) s h
    case failFalsyUpload =>
      rcases h with h | h | h | h
      · cases h
      · exact absurd h hnot
      · cases h; rfl
      · exact ih (a + 1) s h
    case failExn =>
      rcases h with h | h | h | h
      · cases h
      · exact absurd h hnot
      · cases h; rfl
      · exact ih (a + 1) s h

/-! ## Concrete environments used by the witnesses -/

/-- An attempt whose visible tab announces `"Heute keine Essensausgabe"`:
the classifier yields `noServiceToday` and the controller returns early. -/
def noServiceEnv : AttemptEnv :=
  { navOk := true
    page := { visibleTab := some { innerTextResult := some "Heute keine Essensausgabe", boundingBox := none } }
    evalOk := true
    screenshotOk := true
    imageOk := true
    uploadResult := none }

/-- A fully successful attempt: menu text, bounding box present, all calls
succeed, upload yields `"file123"`. -/
def successEnv : AttemptEnv :=
  { navOk := true
    page := { visibleTab := some { innerTextResult := some "Menu: Schnitzel", boundingBox := some { x := 40, y := 90, width := 600, height := 800 } } }
    evalOk := true
    screenshotOk := true
    imageOk := true
    uploadResult := some "file123" }

/-- An attempt where navigation raises before the page is classified. -/
def crashEnv : AttemptEnv :=
  { navOk := false
    page := { visibleTab := none }
    evalOk := true
    screenshotOk := true
    imageOk := true
    uploadResult := none }

/-- An attempt where the visible-tab selector matches nothing: the
classifier reports the missing-selector state and the loop hits the
`continue` statement. -/
def unavailableEnv : AttemptEnv :=
  { navOk := true
    page := { visibleTab := none }
    evalOk := true
    screenshotOk := true
    imageOk := true
    uploadResult := none }

/-- An attempt whose tab exists but whose `inner_text()` call raises. -/
def textFailEnv : AttemptEnv :=
  { navOk := true
    page := { visibleTab := some { innerTextResult := none, boundingBox := none } }
    evalOk := true
    screenshotOk := true
    imageOk := true
    uploadResult := none }

/-! ## Claims -/

/-- C1: for every call of `capture_and_send_screenshot(max_retries,
delay_seconds)`, (a) at most `max_retries` attempts start; (b) as soon as
an executed attempt classifies the page as no-service, the whole run
returns `none` and no later attempt starts; (c) a file identifier is
returned only if an `upload_file` call in the same run returned that
non-absent id. -/
theorem claim_C1_retry_controller_invariant (envs : Nat → AttemptEnv)
    (js : String) (max_retries delay_seconds : Nat) :
    (capture_and_send_screenshot envs js max_retries delay_seconds).2.countP
        isAttemptStartB ≤ max_retries ∧
    (∀ k m, Event.attemptStart k ∈
        (capture_and_send_screenshot envs js max_retries delay_seconds).2 →
      (runAttempt (envs k) js).1 = AttemptOutcome.retNone →
      (capture_and_send_screenshot envs js max_retries delay_seconds).1 = none ∧
      (k < m → Event.attemptStart m ∉
        (capture_and_send_screenshot envs js max_retries delay_seconds).2)) ∧
    (∀ fid, (capture_and_send_screenshot envs js max_retries delay_seconds).1 = some fid →
      Event.uploadCall (some fid) ∈
        (capture_and_send_screenshot envs js max_retries delay_seconds).2) := by
  refine ⟨captureGo_attempts_le envs js delay_seconds max_retries 1, ?_, ?_⟩
  · intro k m hk hno
    obtain ⟨h1, -⟩ := captureGo_retNone_result hk hno
    refine ⟨h1, fun hkm hm => ?_⟩
    obtain ⟨-, hfail⟩ := captureGo_mem_attemptStart hm
    have hk1 := (captureGo_mem_attemptStart hk).1
    have hcontra := hfail k hk1 hkm
    rw [hno] at hcontra
    cases hcontra
  · intro fid h
    exact (captureGo_some_upload h).1

/-- Witness for C1: a run whose first attempt sees the no-service notice
returns `none` and never starts attempt 2; a run whose first attempt
succeeds has the upload call of the returned id in its trace. -/
theorem claim_C1_witness :
    ((capture_and_send_screenshot (fun _ => noServiceEnv) "js" 5 2).1 = none ∧
      Event.attemptStart 2 ∉ (capture_and_send_screenshot (fun _ => noServiceEnv) "js" 5 2).2) ∧
    Event.uploadCall (some "file123") ∈
      (capture_and_send_screenshot (fun _ => successEnv) "js" 5 2).2 := by
  obtain ⟨-, hns, -⟩ := claim_C1_retry_controller_invariant (fun _ => noServiceEnv) "js" 5 2
  obtain ⟨-, -, hup⟩ := claim_C1_retry_controller_invariant (fun _ => successEnv) "js" 5 2
  obtain ⟨hres, hnom⟩ := hns 1 2 (by decide) (by decide)
  exact ⟨⟨hres, hnom (by omega)⟩, hup "file123" (by decide)⟩

/-- C2: the classifier returns the missing-selector state whenever no
element matches the visible-tab selector; returns the no-service state
whenever the matched element's text contains the no-service phrase under
the source's case-insensitive test, regardless of other content; and
otherwise returns the menu-available state holding the matched element. -/
theorem claim_C2_classifier_states (page : Page) :
    (page.visibleTab = none →
      is_menu_available page = Except.ok PageState.unavailable) ∧
    (∀ tab t, page.visibleTab = some tab → tab.innerTextResult = some t →
      containsNoService t = true →
      is_menu_available page = Except.ok PageState.noServiceToday) ∧
    (∀ tab t, page.visibleTab = some tab → tab.innerTextResult = some t →
      containsNoService t = false →
      is_menu_available page = Except.ok (PageState.menuAvailable tab)) := by
  refine ⟨?_, ?_, ?_⟩
  · intro h
    simp [is_menu_available, h]
  · intro tab t h1 h2 h3
    simp [is_menu_available, h1, h2, h3]
  · intro tab t h1 h2 h3
    simp [is_menu_available, h1, h2, h3]

/-- Witness for C2: a page with no matching element, a page whose tab text
is the no-service phrase in capitals, and a page with an ordinary menu
text, each classified as the claim says. -/
theorem claim_C2_witness :
    is_menu_available { visibleTab := none } = Except.ok PageState.unavailable ∧
    is_menu_available { visibleTab := some { innerTextResult := some "HEUTE KEINE ESSENSAUSGABE!", boundingBox := none } } =
      Except.ok PageState.noServiceToday ∧
    is_menu_available { visibleTab := some { innerTextResult := some "Schnitzel mit Pommes", boundingBox := none } } =
      Except.ok (PageState.menuAvailable { innerTextResult := some "Schnitzel mit Pommes", boundingBox := none }) := by
  refine ⟨(claim_C2_classifier_states _).1 rfl,
    (claim_C2_classifier_states _).2.1 _ "HEUTE KEINE ESSENSAUSGABE!" rfl rfl (by decide),
    (claim_C2_classifier_states _).2.2 _ "Schnitzel mit Pommes" rfl rfl (by decide)⟩

/-- C3: the extracted crop region is exactly the rectangle the spec's
formula describes with the fixed margins 25 and 18; the computation is
deterministic; and `x`, `y` are never negative, including when
`box.x < marginLeft` or `box.y < marginTop`. -/
theorem claim_C3_crop_region (box : Box) :
    crop_region box = crop_region_spec box MARGIN_LEFT MARGIN_TOP ∧
    0 ≤ (crop_region box).x ∧
    0 ≤ (crop_region box).y ∧
    (crop_region box).width = box.width + 2 * MARGIN_LEFT ∧
    (crop_region box).height = box.height + 2 * MARGIN_TOP ∧
    (∀ box2 : Box, box2 = box → crop_region box2 = crop_region box) := by
  refine ⟨?_, ?_, ?_, ?_, ?_, ?_⟩
  · simp only [crop_region, crop_region_spec, CropRegion.mk.injEq, MARGIN_LEFT, MARGIN_TOP]
    refine ⟨trivial, trivial, by ring, by ring⟩
  · exact le_max_right _ 0
  · exact le_max_right _ 0
  · simp only [crop_region]
    ring
  · simp only [crop_region]
    ring
  · intro box2 h
    rw [h]

/-- Witness for C3 at a box with `x < marginLeft` and `y < marginTop`:
the clamped corner is still non-negative and the call is repeatable. -/
theorem claim_C3_witness :
    0 ≤ (crop_region { x := 10, y := 5, width := 100, height := 200 }).x ∧
    0 ≤ (crop_region { x := 10, y := 5, width := 100, height := 200 }).y ∧
    crop_region { x := 10, y := 5, width := 100, height := 200 } =
      crop_region { x := 10, y := 5, width := 100, height := 200 } := by
  obtain ⟨-, h2, h3, -, -, h6⟩ :=
    claim_C3_crop_region { x := 10, y := 5, width := 100, height := 200 }
  exact ⟨h2, h3, h6 _ rfl⟩

/-- C4: when every one of the five attempts of the morning job's capture
fails (no success and no no-service classification), the apology message
is posted exactly once and no post record is written.  The job is modelled
as a total function into a trace — no exception value exists that could
escape to the scheduler loop, mirroring that every attempt failure is
caught inside the loop and `mm.post` catches its own exceptions, so the
next scheduled job can still fire. -/
theorem claim_C4_full_exhaustion (weekday : Nat) (envs : Nat → AttemptEnv)
    (js : String) (postResult : Option String)
    (hw : is_weekend weekday = false)
    (hfail : ∀ k, 1 ≤ k → k ≤ 5 → isFailureB ((runAttempt (envs k) js).1) = true) :
    (post_morning_message weekday envs js postResult).countP isApologyB = 1 ∧
    ∀ p, Event.saveRecord p ∉ post_morning_message weekday envs js postResult := by
  have hfail' : ∀ k, 1 ≤ k → k < 1 + 5 → isFailureB ((runAttempt (envs k) js).1) = true :=
    fun k h1 h2 => hfail k h1 (by omega)
  obtain ⟨h1, h2, -⟩ := captureGo_all_fail hfail'
  have hres : (capture_and_send_screenshot envs js 5 2).1 = none := h1
  have htr : post_morning_message weekday envs js postResult =
      (capture_and_send_screenshot envs js 5 2).2 := by
    simp only [post_morning_message, hw, Bool.false_eq_true, if_false]
    rw [hres]
  rw [htr]
  exact ⟨h2, fun p => captureGo_not_mem_saveRecord envs js 2 5 1 p⟩

/-- Witness for C4: every attempt crashes during navigation; the morning
job's trace holds exactly one apology post and no record write. -/
theorem claim_C4_witness :
    (post_morning_message 0 (fun _ => crashEnv) "js" none).countP isApologyB = 1 ∧
    Event.saveRecord "p1" ∉ post_morning_message 0 (fun _ => crashEnv) "js" none := by
  obtain ⟨h1, h2⟩ := claim_C4_full_exhaustion 0 (fun _ => crashEnv) "js" none
    (by decide)
    (fun k _ _ => (by decide : isFailureB ((runAttempt crashEnv "js").1) = true))
  exact ⟨h1, h2 "p1"⟩

/-- C5: saving the record `{post_id: p, date: today}` and loading it on the
same calendar date returns `p` (as the stored JSON string), while loading
it on any different date yields the absent result. -/
theorem claim_C5_record_round_trip (p today other : String) :
    load_post_id (save_post_id p today) today = Except.ok (some (JValue.str p)) ∧
    (other ≠ today →
      load_post_id (save_post_id p today) other = Except.ok none) := by
  constructor
  · simp [load_post_id, save_post_id, dictGet]
  · intro h
    simp [load_post_id, save_post_id, dictGet, Ne.symm h]

/-- Witness for C5 at `p = "abc"` and two distinct dates. -/
theorem claim_C5_witness :
    load_post_id (save_post_id "abc" "2026-10-12") "2026-10-12" =
      Except.ok (some (JValue.str "abc")) ∧
    load_post_id (save_post_id "abc" "2026-10-12") "2026-10-13" =
      Except.ok none := by
  obtain ⟨h1, h2⟩ := claim_C5_record_round_trip "abc" "2026-10-12" "2026-10-13"
  exact ⟨h1, h2 (by decide)⟩

/-- C6 counterexample: a state file whose text is valid JSON but not an
object (for instance the file content `[1, 2]`) is malformed for the
loader's purposes, yet `load_post_id` does not treat it like a missing
file: `json.load` succeeds, `data.get("date")` raises `AttributeError`,
and the `except (FileNotFoundError, json.JSONDecodeError)` clause does not
catch it, so the exception reaches the caller. -/
theorem claim_C6_counterexample :
    load_post_id FileContent.jsonNonObj "2026-10-12" =
      Except.error PyExn.attributeError ∧
    load_post_id FileContent.jsonNonObj "2026-10-12" ≠ Except.ok none := by
  exact ⟨rfl, by simp [load_post_id]⟩

/-- C6 amended: a missing file and a file whose text is not decodable JSON
are both treated as the absent result without raising; a JSON object never
raises whatever its fields are; but a file holding valid JSON whose top
level is not an object makes the load raise an uncaught `AttributeError`
to the caller. -/
theorem claim_C6_amended (today : String) :
    load_post_id FileContent.missing today = Except.ok none ∧
    load_post_id FileContent.notJson today = Except.ok none ∧
    load_post_id FileContent.jsonNonObj today = Except.error PyExn.attributeError ∧
    ∀ fields, ∃ r, load_post_id (FileContent.jsonObj fields) today = Except.ok r := by
  refine ⟨rfl, rfl, rfl, fun fields => ?_⟩
  by_cases h : dictGet fields "date" = some (JValue.str today)
  · exact ⟨dictGet fields "post_id", by simp [load_post_id, h]⟩
  · exact ⟨none, by simp [load_post_id, h]⟩

/-- C7 counterexample: a page whose matched tab exists but whose
`inner_text()` call fails.  `is_menu_available` has no exception handler,
so the failure propagates to the caller instead of yielding the
missing-selector result the claim promises. -/
theorem claim_C7_counterexample :
    is_menu_available { visibleTab := some { innerTextResult := none, boundingBox := none } } =
      Except.error PyExn.genericError ∧
    is_menu_available { visibleTab := some { innerTextResult := none, boundingBox := none } } ≠
      Except.ok PageState.unavailable := by
  exact ⟨rfl, by simp [is_menu_available]⟩

/-- C7 amended: when the matched element exists but reading its text
fails, the classifier propagates the failure to its caller; the retry
controller's broad exception handler then treats the attempt as a
retryable failure, and with at least two attempts budgeted the next
attempt still starts. -/
theorem claim_C7_amended (page : Page) (tab : Element) (js : String)
    (envs : Nat → AttemptEnv) (d rem : Nat)
    (h1 : page.visibleTab = some tab) (h2 : tab.innerTextResult = none)
    (henv : (envs 1).navOk = true) (hpage : (envs 1).page = page)
    (hrem : 2 ≤ rem) :
    is_menu_available page = Except.error PyExn.genericError ∧
    (runAttempt (envs 1) js).1 = AttemptOutcome.failExn ∧
    Event.attemptStart 2 ∈ (capture_and_send_screenshot envs js rem d).2 := by
  have hcls : is_menu_available page = Except.error PyExn.genericError := by
    simp [is_menu_available, h1, h2]
  have hout : (runAttempt (envs 1) js).1 = AttemptOutcome.failExn := by
    simp [runAttempt, henv, hpage, hcls]
  refine ⟨hcls, hout, ?_⟩
  exact captureGo_next_mem envs js d 1 rem hrem (by rw [hout]; rfl)

/-- Witness for C7 amended: the concrete text-extraction-failure page,
run with a budget of three attempts. -/
theorem claim_C7_witness :
    is_menu_available { visibleTab := some { innerTextResult := none, boundingBox := none } } =
      Except.error PyExn.genericError ∧
    (runAttempt textFailEnv "js").1 = AttemptOutcome.failExn ∧
    Event.attemptStart 2 ∈ (capture_and_send_screenshot (fun _ => textFailEnv) "js" 3 2).2 := by
  exact claim_C7_amended { visibleTab := some { innerTextResult := none, boundingBox := none } }
    { innerTextResult := none, boundingBox := none } "js" (fun _ => textFailEnv) 2 3
    rfl rfl rfl rfl (by omega)

/-- C8 counterexample: a run of two attempts in which both find the
visible tab missing.  Attempt 1 fails and is not final — attempt 2 starts
right after — yet the trace holds no sleep event at all, because the
`continue` statement in the missing-tab branch jumps past
`time.sleep(delay_seconds)`. -/
theorem claim_C8_counterexample :
    capture_and_send_screenshot (fun _ => unavailableEnv) "js" 2 2 =
      (none, [Event.attemptStart 1, Event.attemptStart 2, Event.apologyPost]) ∧
    isFailureB ((runAttempt unavailableEnv "js").1) = true := by
  exact ⟨by decide, rfl⟩

/-- C8 amended: the controller sleeps `delay_seconds` exactly after those
executed attempts that fail through the falsy-upload path or through an
exception (the paths that reach the bottom of the loop body); after an
attempt abandoned by `continue` — missing visible tab or missing bounding
box — the next attempt starts with no sleep.  Formally, the sleep events
in a run's trace number exactly the started attempts whose outcome reaches
the sleep, and every sleep event carries `delay_seconds`. -/
theorem claim_C8_amended (envs : Nat → AttemptEnv) (js : String)
    (max_retries delay_seconds : Nat) :
    (capture_and_send_screenshot envs js max_retries delay_seconds).2.countP isSleepB =
      (capture_and_send_screenshot envs js max_retries delay_seconds).2.countP
        (sleepyAttemptB envs js) ∧
    (∀ s, Event.sleep s ∈ (capture_and_send_screenshot envs js max_retries delay_seconds).2 →
      s = delay_seconds) := by
  exact ⟨captureGo_sleep_count envs js delay_seconds max_retries 1,
    fun s h => captureGo_sleep_val envs js delay_seconds max_retries 1 s h⟩

/-- Witness for C8 amended: two navigation-crash attempts with a delay of
seven seconds; the trace holds a sleep of seven seconds after each. -/
theorem claim_C8_witness :
    (capture_and_send_screenshot (fun _ => crashEnv) "js" 2 7).2.countP isSleepB =
      (capture_and_send_screenshot (fun _ => crashEnv) "js" 2 7).2.countP
        (sleepyAttemptB (fun _ => crashEnv) "js") ∧
    7 = 7 := by
  obtain ⟨h1, h2⟩ := claim_C8_amended (fun _ => crashEnv) "js" 2 7
  exact ⟨h1, h2 7 (by decide)⟩

/-- C9 counterexample: on a Monday (Python weekday index 0) with no stored
record, the reminder job performs no capture, post, or reminder action even
though the date is not a Saturday or Sunday, refuting the only-if
direction of the claimed equivalence. -/
theorem claim_C9_counterexample :
    is_weekend 0 = false ∧
    post_reminder_message 0 FileContent.missing "2026-10-12" (some "post1") =
      Except.ok [] := by
  exact ⟨rfl, rfl⟩

/-- C9 amended: both jobs branch on the same `is_weekend` check (weekday
index of the current local date at least 5, i.e. Saturday or Sunday) and
perform no action on a weekend; on a non-weekend day the morning job
always starts a capture attempt, and the reminder job — given a fresh
non-empty record for today and a successful post call — posts the threaded
reminder and deletes the record.  The converse of the weekend skip fails
only for the reminder job when no fresh record exists. -/
theorem claim_C9_amended :
    (∀ wd envs js pr file today pr2, is_weekend wd = true →
      post_morning_message wd envs js pr = [] ∧
      post_reminder_message wd file today pr2 = Except.ok []) ∧
    (∀ wd envs js pr, is_weekend wd = false →
      Event.attemptStart 1 ∈ post_morning_message wd envs js pr) ∧
    (∀ wd p today r, is_weekend wd = false → p ≠ "" →
      post_reminder_message wd (save_post_id p today) today (some r) =
        Except.ok [RemEvent.reminderPost (JValue.str p) (some r), RemEvent.deleteRecord]) := by
  refine ⟨?_, ?_, ?_⟩
  · intro wd envs js pr file today pr2 hw
    constructor
    · simp [post_morning_message, hw]
    · simp [post_reminder_message, hw]
  · intro wd envs js pr hw
    have hmem := captureGo_head_mem envs js 2 1 5 (by omega)
    simp only [post_morning_message, hw, Bool.false_eq_true, if_false]
    cases hcap : (capture_and_send_screenshot envs js 5 2).1 with
    | none =>
      exact hmem
    | some fid =>
      by_cases hf : fid = ""
      · simp only [hf, if_pos rfl]
        exact hmem
      · simp only [if_neg hf]
        cases pr with
        | none => exact List.mem_append_left _ hmem
        | some postId => exact List.mem_append_left _ hmem
  · intro wd p today r hw hp
    have hload : load_post_id (save_post_id p today) today =
        Except.ok (some (JValue.str p)) := by
      simp [load_post_id, save_post_id, dictGet]
    simp [post_reminder_message, hw, hload, jvalueTruthy, hp]

/-- Witness for C9 amended: a Saturday run of both jobs does nothing; a
Monday morning job starts a capture; a Monday reminder job with a fresh
record posts and deletes. -/
theorem claim_C9_witness :
    (post_morning_message 5 (fun _ => crashEnv) "js" none = [] ∧
      post_reminder_message 5 FileContent.missing "2026-10-10" none = Except.ok []) ∧
    Event.attemptStart 1 ∈ post_morning_message 0 (fun _ => crashEnv) "js" none ∧
    post_reminder_message 0 (save_post_id "abc" "2026-10-12") "2026-10-12" (some "r1") =
      Except.ok [RemEvent.reminderPost (JValue.str "abc") (some "r1"), RemEvent.deleteRecord] := by
  exact ⟨claim_C9_amended.1 5 (fun _ => crashEnv) "js" none FileContent.missing "2026-10-10" none rfl,
    claim_C9_amended.2.1 0 (fun _ => crashEnv) "js" none rfl,
    claim_C9_amended.2.2 0 "abc" "2026-10-12" "r1" rfl (by decide)⟩

/-- C10: the controller's return value collapses the no-service outcome
and the retries-exhausted outcome into the same absent result `none`; the
two runs differ only in side effects — the apology post appears in the
exhaustion trace and never in a no-service trace. -/
theorem claim_C10_collapsed_return (envs : Nat → AttemptEnv) (js : String)
    (max_retries delay_seconds : Nat) :
    (∀ k, Event.attemptStart k ∈
        (capture_and_send_screenshot envs js max_retries delay_seconds).2 →
      (runAttempt (envs k) js).1 = AttemptOutcome.retNone →
      (capture_and_send_screenshot envs js max_retries delay_seconds).1 = none ∧
      Event.apologyPost ∉ (capture_and_send_screenshot envs js max_retries delay_seconds).2) ∧
    ((∀ k, 1 ≤ k → k ≤ max_retries → isFailureB ((runAttempt (envs k) js).1) = true) →
      (capture_and_send_screenshot envs js max_retries delay_seconds).1 = none ∧
      Event.apologyPost ∈ (capture_and_send_screenshot envs js max_retries delay_seconds).2) := by
  constructor
  · intro k hk hno
    exact captureGo_retNone_result hk hno
  · intro h
    have h' : ∀ k, 1 ≤ k → k < 1 + max_retries →
        isFailureB ((runAttempt (envs k) js).1) = true :=
      fun k h1 h2 => h k h1 (by omega)
    obtain ⟨h1, -, h3⟩ := captureGo_all_fail h'
    exact ⟨h1, h3⟩

/-- Witness for C10: a no-service run and an all-crash run both return
`none`; only the latter's trace holds the apology post. -/
theorem claim_C10_witness :
    ((capture_and_send_screenshot (fun _ => noServiceEnv) "js" 2 2).1 = none ∧
      Event.apologyPost ∉ (capture_and_send_screenshot (fun _ => noServiceEnv) "js" 2 2).2) ∧
    ((capture_and_send_screenshot (fun _ => crashEnv) "js" 2 2).1 = none ∧
      Event.apologyPost ∈ (capture_and_send_screenshot (fun _ => crashEnv) "js" 2 2).2) := by
  obtain ⟨hns, -⟩ := claim_C10_collapsed_return (fun _ => noServiceEnv) "js" 2 2
  obtain ⟨-, hex⟩ := claim_C10_collapsed_return (fun _ => crashEnv) "js" 2 2
  exact ⟨hns 1 (by decide) (by decide),
    hex (fun k _ _ => (by decide : isFailureB ((runAttempt crashEnv "js").1) = true))⟩

end Mensa
